import Mathlib

/-!
# github-activity-tracker: verification of the specified behaviour

Shallow embedding of the two components the specification covers:

* the repository registrar (`api/index.ts`: `checkRepoExists`, the
  `POST /api/addRepo` handler), and
* the activity aggregation hook (`src/lib/hooks.ts`: `useGitHubActivity`,
  in its later revision with `searchUsername` / `selectedRepos` /
  `selectedUsers`; the earlier revision is the special case where those
  three parameters keep their defaults `""` and `[]`).

External collaborators are modelled as data supplied to the embedded
functions: the GitHub existence probe and the ingestion process become an
environment record, the relational store becomes a record of tables plus
per-query fault injection (a supabase query resolves with `{ data, error }`
and never rejects, so an injected error appears in the result object, not
as an exception).  Timestamps are modelled as integers (epoch
milliseconds): for `timestamptz` values the ISO-string order used by the
store's range filters coincides with the numeric order used by the final
sort, so one integer field represents both faithfully.
-/

/-! ## Repository registrar (`api/index.ts`) -/

/-- One character of the repository-name character class `[a-zA-Z0-9_.-]`
from the validation regex at `api/index.ts:39`. -/
def isRepoNameChar (c : Char) : Bool :=
  (decide ('a' ≤ c) && decide (c ≤ 'z')) ||
  (decide ('A' ≤ c) && decide (c ≤ 'Z')) ||
  (decide ('0' ≤ c) && decide (c ≤ '9')) ||
  c == '_' || c == '.' || c == '-'

/-- The test `/^[a-zA-Z0-9_.-]+\/[a-zA-Z0-9_.-]+$/.test(repoName)` at
`api/index.ts:39`: the string is `owner/repo` where both segments are
non-empty and drawn from the class above (which excludes `/`, so the
string contains exactly one slash). -/
def validRepoName (s : String) : Bool :=
  let cs := s.toList
  let owner := cs.takeWhile (fun c => c != '/')
  match cs.dropWhile (fun c => c != '/') with
  | '/' :: repo =>
      !owner.isEmpty && owner.all isRepoNameChar &&
      !repo.isEmpty && repo.all isRepoNameChar
  | _ => false

/-- Outcome of the external ingestion process `python github_activity.py`
(`api/index.ts:55`-`75`): its exit code and captured streams. -/
structure IngestionOutcome where
  exitCode : Int
  stdout : String
  stderr : String
deriving DecidableEq, Repr

/-- The registrar's external collaborators for one request: the outcome of
the GitHub existence probe (`Except.error` models the `fetch` throwing)
and the outcome of the ingestion process. -/
structure RegistrarEnv where
  probeResult : Except String Bool
  ingestion : IngestionOutcome

/-- `checkRepoExists` (`api/index.ts:15`-`29`): returns `response.ok`, and
returns `false` when the fetch throws (the `catch` branch). -/
def checkRepoExists (env : RegistrarEnv) : Bool :=
  match env.probeResult with
  | .ok ok => ok
  | .error _ => false

/-- A JSON response of the `/api/addRepo` handler: HTTP status plus the
`error` / `message` / `output` fields that appear in the bodies it sends. -/
structure ApiResponse where
  status : Nat
  error : Option String
  message : Option String
  output : Option String
deriving DecidableEq, Repr

/-- Externally visible side effects of one `/api/addRepo` request, in
order: the GitHub existence probe, the `config.properties` append, and
spawning the ingestion process. -/
inductive RegistrarEffect
  | probe (repoName : String)
  | appendConfig (line : String)
  | runIngestion
deriving DecidableEq, Repr

/-- The `POST /api/addRepo` handler (`api/index.ts:31`-`90`).  `repoName`
is the request body's field (`none` models a missing field; the handler's
`!repoName` also treats the empty string as missing).  Returns the
response together with the list of external effects performed. -/
def addRepo (repoName : Option String) (env : RegistrarEnv) :
    ApiResponse × List RegistrarEffect :=
  match repoName with
  | none => (⟨400, some "Repository name is required", none, none⟩, [])
  | some name =>
    if name = "" then
      (⟨400, some "Repository name is required", none, none⟩, [])
    else if !(validRepoName name) then
      (⟨400, some "Invalid repository name format. Use owner/repo.", none, none⟩, [])
    else if !(checkRepoExists env) then
      (⟨404, some ("Repository " ++ name ++ " not found on GitHub"), none, none⟩,
       [.probe name])
    else
      let out := env.ingestion
      let effects : List RegistrarEffect :=
        [.probe name, .appendConfig ("\n" ++ name ++ "=" ++ name), .runIngestion]
      if out.exitCode ≠ 0 then
        (⟨500,
          some ("Python script exited with code " ++ toString out.exitCode ++ ": " ++ out.stderr),
          none, none⟩, effects)
      else if out.stderr ≠ "" then
        (⟨500, some ("Python script failed: " ++ out.stderr), none, none⟩, effects)
      else
        (⟨200, none, some "Repository added successfully", some out.stdout⟩, effects)

/-! ## Activity aggregation hook (`src/lib/hooks.ts`, `useGitHubActivity`)

The embedding models one aggregation cycle: the body of `fetchData`
together with the `shouldFetchData` gate of the surrounding effect.  React
state cells (`activities`, `loading`, `error`) become a `HookState` record
threaded through the cycle; the supabase client becomes a `Store` record;
the wall clock and `new Date(string)` parsing become a `HookEnv` record.
Each per-kind supabase request resolves with a `{ data, error }` result
object (it does not reject), which `QueryResult` mirrors.  The cycle also
returns a `CycleLog` recording which requests were actually issued. -/

/-- A row of the `repositories` registry table. -/
structure Repo where
  id : String
  name : String
  created_at : Int
deriving DecidableEq, Repr

/-- A row of the `commits` table (see the schema and `database.types`). -/
structure CommitRow where
  id : String
  repository_id : String
  message : String
  author : String
  committed_at : Int
  created_at : Int
deriving DecidableEq, Repr

/-- A row of the `pull_requests` table. -/
structure PullRequestRow where
  id : String
  repository_id : String
  title : String
  author : String
  created_at : Int
deriving DecidableEq, Repr

/-- A row of the `issues` table. -/
structure IssueRow where
  id : String
  repository_id : String
  title : String
  author : String
  created_at : Int
deriving DecidableEq, Repr

/-- A row of the `reviews` table. -/
structure ReviewRow where
  id : String
  repository_id : String
  comment : String
  author : String
  created_at : Int
deriving DecidableEq, Repr

/-- A settled supabase response: `data` is `none` when the request
errored (the client resolves with `{ data: null, error }` rather than
rejecting). -/
structure QueryResult (α : Type) where
  data : Option (List α)
  error : Option String
deriving DecidableEq, Repr

/-- The relational store as one cycle observes it: the registry response
and the four activity tables, plus per-kind fault injection (`some e`
makes that kind's request resolve as `{ data: null, error: e }`). -/
structure Store where
  reposRes : QueryResult Repo
  commits : List CommitRow
  pullRequests : List PullRequestRow
  issues : List IssueRow
  reviews : List ReviewRow
  commitsError : Option String
  prsError : Option String
  issuesError : Option String
  reviewsError : Option String
deriving Repr

/-- The hook's parameters for one cycle, with the TypeScript defaults. -/
structure Config where
  selectedRepo : String
  dateRange : String
  startDate : Option String := none
  endDate : Option String := none
  shouldFetchData : Bool := true
  searchUsername : String := ""
  selectedRepos : List String := []
  selectedUsers : List String := []
deriving Repr

/-- Ambient time: the current clock in epoch milliseconds and the
`new Date(string)` parser for the custom-range date strings. -/
structure HookEnv where
  now : Int
  parseDate : String → Int

/-- The normalized `Activity` shape (`hooks.ts:252`-`258`): the closed
kind tag, the display text, the author, the timestamp (epoch
milliseconds) and the resolved repository name. -/
structure Activity where
  type : String
  title : String
  author : String
  date : Int
  repository : String
deriving DecidableEq, Repr

/-- The React state cells the hook publishes. -/
structure HookState where
  activities : List Activity
  loading : Bool
  error : Option String
deriving DecidableEq, Repr

/-- JavaScript truthiness of an optional string parameter: `undefined`
and the empty string are both falsy (`App.tsx` passes `''` for unset
dates). -/
def truthyStr : Option String → Bool
  | none => false
  | some s => s != ""

/-- One day in milliseconds. -/
def dayMs : Int := 86400000

/-- `setHours(0, 0, 0, 0)` modelled in a fixed (UTC) reference zone:
round down to midnight of the containing day. -/
def startOfDay (t : Int) : Int := dayMs * (Int.ediv t dayMs)

/-- `setHours(23, 59, 59, 999)`: the last millisecond of the containing
day. -/
def endOfDay (t : Int) : Int := startOfDay t + dayMs - 1

/-- The date-bound computation (`hooks.ts:300`-`328`): custom ranges use
the parsed dates normalized to start/end of day; the `7d`/`30d`/`90d`
presets subtract days from end-of-day *now* then normalize to start of
day; any other non-`all` value falls through the switch and yields
today's window; `all` yields no bounds. -/
def computeDateFilters (cfg : Config) (env : HookEnv) : Option Int × Option Int :=
  if cfg.dateRange == "custom" && truthyStr cfg.startDate && truthyStr cfg.endDate then
    (some (startOfDay (env.parseDate (cfg.startDate.getD ""))),
     some (endOfDay (env.parseDate (cfg.endDate.getD ""))))
  else if cfg.dateRange != "all" then
    let endF := endOfDay env.now
    let base :=
      match cfg.dateRange with
      | "7d" => endF - 7 * dayMs
      | "30d" => endF - 30 * dayMs
      | "90d" => endF - 90 * dayMs
      | _ => endF
    (some (startOfDay base), some endF)
  else
    (none, none)

/-- The author filter a per-kind query carries (`hooks.ts:380`-`384`):
`.eq('author', u)`, `.in('author', us)`, or no author constraint. -/
inductive AuthorFilter
  | eqAuthor (username : String)
  | inAuthors (usernames : List String)
  | noFilter
deriving DecidableEq, Repr

/-- The `if (searchUsername) ... else if (selectedUsers.length > 0) ...`
chain each of the four query builders runs. -/
def authorFilterOf (searchUsername : String) (selectedUsers : List String) : AuthorFilter :=
  if searchUsername != "" then .eqAuthor searchUsername
  else if selectedUsers.length > 0 then .inAuthors selectedUsers
  else .noFilter

/-- One issued per-kind request: target table, repository-id membership
filter, author filter, and the inclusive date bounds. -/
structure ActivityQuery where
  table : String
  repoIds : List String
  author : AuthorFilter
  gteBound : Option Int
  lteBound : Option Int
deriving DecidableEq, Repr

/-- Builds one per-kind query exactly as the hook does: repository-id
membership, the author chain, then `applyDateFilters` adding `gte`/`lte`
bounds when present. -/
def buildActivityQuery (table : String) (repoIds : List String) (cfg : Config)
    (dateFilter endDateFilter : Option Int) : ActivityQuery :=
  { table := table
    repoIds := repoIds
    author := authorFilterOf cfg.searchUsername cfg.selectedUsers
    gteBound := dateFilter
    lteBound := endDateFilter }

/-- Semantics of the author filter on a row's author column. -/
def authorMatches : AuthorFilter → String → Bool
  | .eqAuthor u, a => a == u
  | .inAuthors us, a => us.contains a
  | .noFilter, _ => true

/-- Semantics of the inclusive `gte`/`lte` bounds on a row's timestamp. -/
def withinBounds (q : ActivityQuery) (ts : Int) : Bool :=
  (match q.gteBound with | some b => decide (b ≤ ts) | none => true) &&
  (match q.lteBound with | some b => decide (ts ≤ b) | none => true)

/-- A row satisfies a query when its repository id is in the membership
set, its author passes the author filter, and its timestamp is within the
bounds. -/
def rowPasses (q : ActivityQuery) (repoId author : String) (ts : Int) : Bool :=
  q.repoIds.contains repoId && authorMatches q.author author && withinBounds q ts

/-- The store executing one per-kind request: with an injected fault the
response is `{ data: null, error }`; otherwise the matching rows, in the
requested descending order by the kind's timestamp column (a stable sort,
as any conforming implementation must provide). -/
def runQuery {α : Type} (q : ActivityQuery) (rows : List α)
    (repoId author : α → String) (ts : α → Int) (err : Option String) : QueryResult α :=
  match err with
  | some e => ⟨none, some e⟩
  | none =>
      ⟨some ((rows.filter (fun r => rowPasses q (repoId r) (author r) (ts r))).insertionSort
          (fun a b => ts b ≤ ts a)), none⟩

/-- Repository filtering (`hooks.ts:346`-`351`): the `all` sentinel keeps
the registry, a name keeps exact matches, and a non-empty `selectedRepos`
list overrides both with a membership filter over the full registry. -/
def resolveScope (cfg : Config) (repos : List Repo) : List Repo :=
  let filtered :=
    if cfg.selectedRepo == "all" then repos
    else repos.filter (fun r => r.name == cfg.selectedRepo)
  if cfg.selectedRepos.length > 0 then
    repos.filter (fun r => cfg.selectedRepos.contains r.name)
  else filtered

/-- The `repoNames` id→name map built by `reduce` (`hooks.ts:354`-`357`):
a later row with the same id overwrites an earlier one, and a missing id
yields `undefined`, modelled as the empty string. -/
def repoNameOf (repos : List Repo) (id : String) : String :=
  ((repos.filter (fun r => r.id == id)).getLast?.map Repo.name).getD ""

/-- `err.message || 'Failed to fetch activity data'`: an empty message is
falsy and replaced by the fallback text. -/
def surfacedError (e : String) : String :=
  if e = "" then "Failed to fetch activity data" else e

/-- `commitsRes.data?.map(...) ?? []`: the rows when present, else the
empty list.  Note the `error` field of the result is never consulted. -/
def dataOrEmpty {α : Type} (res : QueryResult α) : List α := res.data.getD []

/-- The `allActivities` concatenation (`hooks.ts:458`-`489`): normalize
each kind's rows into the common shape, in the fixed order commits, pull
requests, issues, reviews. -/
def normalizeActivities (filteredRepos : List Repo)
    (commitsRes : QueryResult CommitRow) (prsRes : QueryResult PullRequestRow)
    (issuesRes : QueryResult IssueRow) (reviewsRes : QueryResult ReviewRow) :
    List Activity :=
  ((dataOrEmpty commitsRes).map fun c =>
    ⟨"commit", c.message, c.author, c.committed_at, repoNameOf filteredRepos c.repository_id⟩) ++
  ((dataOrEmpty prsRes).map fun p =>
    ⟨"pr", p.title, p.author, p.created_at, repoNameOf filteredRepos p.repository_id⟩) ++
  ((dataOrEmpty issuesRes).map fun i =>
    ⟨"issue", i.title, i.author, i.created_at, repoNameOf filteredRepos i.repository_id⟩) ++
  ((dataOrEmpty reviewsRes).map fun r =>
    ⟨"review", r.comment, r.author, r.created_at, repoNameOf filteredRepos r.repository_id⟩)

/-- The descending-by-date order of the final
`sort((a, b) => new Date(b.date).getTime() - new Date(a.date).getTime())`:
`a` may precede `b` when `b.date ≤ a.date`. -/
def activityDesc (a b : Activity) : Prop := b.date ≤ a.date

instance : DecidableRel activityDesc := fun a b => Int.decLe b.date a.date

/-- The final sort of the merged activity list, latest first (a stable
sort, as JavaScript's `Array.prototype.sort` must be). -/
def sortByDateDesc (l : List Activity) : List Activity := l.insertionSort activityDesc

/-- What one cycle actually requested from the store. -/
structure CycleLog where
  registryFetched : Bool
  activityQueries : List ActivityQuery
deriving DecidableEq, Repr

/-- The body of `fetchData` (`hooks.ts:289`-`502`) for a cycle whose
cancellation token is never signalled: set loading, clear the error,
guard the incomplete custom range, fetch the registry (throwing on its
error, short-circuiting when it is null or empty), resolve the scope,
issue the four per-kind requests, merge-normalize-sort, and publish. -/
def fetchData (cfg : Config) (env : HookEnv) (store : Store) (s : HookState) :
    HookState × CycleLog :=
  let s1 : HookState := { s with loading := true, error := none }
  if cfg.dateRange == "custom" && (!(truthyStr cfg.startDate) || !(truthyStr cfg.endDate)) then
    ({ s1 with loading := false }, ⟨false, []⟩)
  else
    let bounds := computeDateFilters cfg env
    match store.reposRes.error with
    | some e =>
        ({ s1 with error := some (surfacedError e), loading := false }, ⟨true, []⟩)
    | none =>
      match store.reposRes.data with
      | none => ({ s1 with activities := [], loading := false }, ⟨true, []⟩)
      | some repos =>
        if repos.isEmpty then
          ({ s1 with activities := [], loading := false }, ⟨true, []⟩)
        else
          let filteredRepos := resolveScope cfg repos
          let repoIds := filteredRepos.map Repo.id
          let qCommits := buildActivityQuery "commits" repoIds cfg bounds.1 bounds.2
          let qPrs := buildActivityQuery "pull_requests" repoIds cfg bounds.1 bounds.2
          let qIssues := buildActivityQuery "issues" repoIds cfg bounds.1 bounds.2
          let qReviews := buildActivityQuery "reviews" repoIds cfg bounds.1 bounds.2
          let commitsRes := runQuery qCommits store.commits CommitRow.repository_id
            CommitRow.author CommitRow.committed_at store.commitsError
          let prsRes := runQuery qPrs store.pullRequests PullRequestRow.repository_id
            PullRequestRow.author PullRequestRow.created_at store.prsError
          let issuesRes := runQuery qIssues store.issues IssueRow.repository_id
            IssueRow.author IssueRow.created_at store.issuesError
          let reviewsRes := runQuery qReviews store.reviews ReviewRow.repository_id
            ReviewRow.author ReviewRow.created_at store.reviewsError
          let merged := normalizeActivities filteredRepos commitsRes prsRes issuesRes reviewsRes
          ({ s1 with activities := sortByDateDesc merged, loading := false },
           ⟨true, [qCommits, qPrs, qIssues, qReviews]⟩)

/-- One aggregation cycle including the effect's `shouldFetchData` gate
(`hooks.ts:281`-`284`): when the gate is off, only the loading flag is
cleared and nothing is fetched. -/
def runCycle (cfg : Config) (env : HookEnv) (store : Store) (s : HookState) :
    HookState × CycleLog :=
  if !cfg.shouldFetchData then ({ s with loading := false }, ⟨false, []⟩)
  else fetchData cfg env store s

/-- The state mutations a cycle performs when it resumes *after* its
cancellation token was signalled while the registry read was in flight.
The abort is best-effort: a request that already settled still delivers
its result, so the continuation runs with `signal.aborted = true` on
whatever the registry returned.  Tracing `hooks.ts` with every
`signal.aborted` check true: a registry error is swallowed by the guarded
`catch`/`finally` (no mutation); a non-empty registry reaches the guarded
check after `Promise.all` (no mutation); but the null/empty-registry
branch (`hooks.ts:338`-`342`) has no abort check and still publishes the
empty list and clears the loading flag. -/
def lateResume (store : Store) (s : HookState) : HookState :=
  match store.reposRes.error with
  | some _ => s
  | none =>
    match store.reposRes.data with
    | none => { s with activities := [], loading := false }
    | some repos =>
      if repos.isEmpty then { s with activities := [], loading := false }
      else s

/-! ## Concrete fixtures used by counterexamples and witnesses -/

/-- A registry row. -/
def repoR1 : Repo := ⟨"r1", "acme/widgets", 0⟩

/-- A commit in `acme/widgets`. -/
def commitC1 : CommitRow := ⟨"c1", "r1", "fix build", "alice", 1000, 1000⟩

/-- A pull request in `acme/widgets`, newer than `commitC1`. -/
def prP1 : PullRequestRow := ⟨"p1", "r1", "add feature", "bob", 2000⟩

/-- A healthy store holding one repository with one commit. -/
def storeOneCommit : Store :=
  ⟨⟨some [repoR1], none⟩, [commitC1], [], [], [], none, none, none, none⟩

/-- A store holding one repository, one commit and one pull request. -/
def storeCommitPr : Store :=
  ⟨⟨some [repoR1], none⟩, [commitC1], [prP1], [], [], none, none, none, none⟩

/-- A store whose registry read fails. -/
def storeRegistryError : Store :=
  ⟨⟨none, some "db down"⟩, [], [], [], [], none, none, none, none⟩

/-- A store whose registry is empty. -/
def storeEmptyRegistry : Store :=
  ⟨⟨some [], none⟩, [], [], [], [], none, none, none, none⟩

/-- `storeOneCommit` with a fault injected into the pull-request query. -/
def storePrsFail : Store := { storeOneCommit with prsError := some "boom" }

/-- Scope `all`, date range `all`, everything else at its defaults. -/
def cfgAll : Config := { selectedRepo := "all", dateRange := "all" }

/-- A selected repository that matches no registry row. -/
def cfgRepoB : Config := { selectedRepo := "beta/app", dateRange := "all" }

/-- A custom date range with only the start date supplied. -/
def cfgCustomOneDate : Config :=
  { selectedRepo := "all", dateRange := "custom", startDate := some "2024-01-01" }

/-- Both a single exact-match author and an author set supplied. -/
def cfgBothAuthors : Config :=
  { selectedRepo := "all", dateRange := "all",
    searchUsername := "alice", selectedUsers := ["bob", "carol"] }

/-- A fixed clock and date parser for concrete runs. -/
def envZero : HookEnv := ⟨0, fun _ => 0⟩

/-- The hook's initial state. -/
def state0 : HookState := ⟨[], true, none⟩

/-- A previously published activity. -/
def actPrev : Activity := ⟨"commit", "old work", "alice", 500, "acme/widgets"⟩

/-- A state holding a previously published sequence. -/
def statePrev : HookState := ⟨[actPrev], false, none⟩

/-- A state holding a previously published sequence and a surfaced error. -/
def statePrevErr : HookState := ⟨[actPrev], false, some "boom"⟩

/-! ### Registrar theorems -/

/-- C9: every name failing the `owner/repo` pattern (a missing or empty
name included) is rejected with status 400 before any external effect
(probe, config append, ingestion) happens. -/
theorem addRepo_rejects_invalid_name (repoName : Option String) (env : RegistrarEnv)
    (h : ∀ s, repoName = some s → validRepoName s = false) :
    (addRepo repoName env).1.status = 400 ∧ (addRepo repoName env).2 = [] := by
  match repoName with
  | none => simp [addRepo]
  | some name =>
    have hv := h name rfl
    by_cases he : name = ""
    · subst he; simp [addRepo]
    · simp [addRepo, he, hv]

/-- Witness for C9 at the spec's own example input `"not-a-valid-name"`. -/
theorem addRepo_rejects_invalid_name_witness :
    (addRepo (some "not-a-valid-name")
        ⟨.ok true, ⟨0, "", ""⟩⟩).1.status = 400 ∧
    (addRepo (some "not-a-valid-name")
        ⟨.ok true, ⟨0, "", ""⟩⟩).2 = [] :=
  addRepo_rejects_invalid_name _ _ (fun _ hs => by cases hs; decide)

/-- C10: when the existence probe's fetch throws, the handler responds
exactly as it does for a repository that does not exist upstream: a 404
naming the repository, indistinguishable from the probe returning
not-found; the network failure is not surfaced as a distinct error. -/
theorem addRepo_probe_error_as_not_found (name e : String) (ing : IngestionOutcome)
    (h : validRepoName name = true) :
    (addRepo (some name) ⟨.error e, ing⟩).1 =
      ⟨404, some ("Repository " ++ name ++ " not found on GitHub"), none, none⟩ ∧
    addRepo (some name) ⟨.error e, ing⟩ = addRepo (some name) ⟨.ok false, ing⟩ := by
  have hne : name ≠ "" := by
    intro h0; rw [h0] at h; exact absurd h (by decide)
  refine ⟨?_, ?_⟩ <;> simp [addRepo, hne, h, checkRepoExists]

/-- Witness for C10 at the valid name `"octocat/Hello-World"` with a
throwing probe. -/
theorem addRepo_probe_error_as_not_found_witness :
    validRepoName "octocat/Hello-World" = true ∧
    (addRepo (some "octocat/Hello-World") ⟨.error "network down", ⟨0, "", ""⟩⟩).1 =
      ⟨404, some ("Repository " ++ "octocat/Hello-World" ++ " not found on GitHub"),
        none, none⟩ :=
  ⟨by decide,
   (addRepo_probe_error_as_not_found "octocat/Hello-World" "network down" ⟨0, "", ""⟩
      (by decide)).1⟩

/-- C4 counterexample: an ingestion run that completes with exit code `0`
but a non-empty stderr is reported as a 500 failure, not the 200 success
the claim requires for every zero-exit completion. -/
theorem addRepo_zero_exit_counterexample :
    (addRepo (some "octocat/Hello-World")
        ⟨.ok true, ⟨0, "done", "warning: rate limited"⟩⟩).1.status = 500 := by
  decide

/-- C4 amended: past validation and the existence check, the handler
responds 500 with the exit-code diagnostic when the ingestion process
exits non-zero; 500 with the stderr diagnostic when it exits zero but
wrote to stderr; and 200 carrying the captured stdout only when it exits
zero with an empty stderr. -/
theorem addRepo_ingestion_result (name : String) (env : RegistrarEnv)
    (h1 : validRepoName name = true) (h2 : checkRepoExists env = true) :
    (env.ingestion.exitCode ≠ 0 →
      (addRepo (some name) env).1 =
        ⟨500,
         some ("Python script exited with code " ++ toString env.ingestion.exitCode ++
               ": " ++ env.ingestion.stderr), none, none⟩) ∧
    (env.ingestion.exitCode = 0 → env.ingestion.stderr ≠ "" →
      (addRepo (some name) env).1 =
        ⟨500, some ("Python script failed: " ++ env.ingestion.stderr), none, none⟩) ∧
    (env.ingestion.exitCode = 0 → env.ingestion.stderr = "" →
      (addRepo (some name) env).1 =
        ⟨200, none, some "Repository added successfully", some env.ingestion.stdout⟩) := by
  have hne : name ≠ "" := by
    intro h0; rw [h0] at h1; exact absurd h1 (by decide)
  refine ⟨fun hc => ?_, fun hc hs => ?_, fun hc hs => ?_⟩
  · simp [addRepo, hne, h1, h2, hc]
  · simp [addRepo, hne, h1, h2, hc, hs]
  · simp [addRepo, hne, h1, h2, hc, hs]

/-- Witness for C4's amended claim: a clean zero-exit ingestion run yields
the 200 success response carrying the captured output. -/
theorem addRepo_ingestion_result_witness :
    validRepoName "octocat/Hello-World" = true ∧
    checkRepoExists ⟨.ok true, ⟨0, "ingested 3 repos", ""⟩⟩ = true ∧
    (addRepo (some "octocat/Hello-World") ⟨.ok true, ⟨0, "ingested 3 repos", ""⟩⟩).1 =
      ⟨200, none, some "Repository added successfully", some "ingested 3 repos"⟩ :=
  ⟨by decide, by decide,
   (addRepo_ingestion_result "octocat/Hello-World" ⟨.ok true, ⟨0, "ingested 3 repos", ""⟩⟩
      (by decide) (by decide)).2.2 rfl rfl⟩

/-! ### Aggregator theorems -/

/-- Helper: a per-kind query whose repository-id membership set is empty
contributes no rows, whether or not a fault is injected. -/
theorem dataOrEmpty_runQuery_nil_repoIds {α : Type} (q : ActivityQuery) (rows : List α)
    (repoId author : α → String) (ts : α → Int) (err : Option String)
    (h : q.repoIds = []) :
    dataOrEmpty (runQuery q rows repoId author ts err) = [] := by
  cases err with
  | some e => rfl
  | none => simp [runQuery, dataOrEmpty, rowPasses, h]

/-- C1 counterexample: with the pull-request query failing and the commit
query succeeding, the cycle publishes the partial output built from the
succeeding queries and surfaces no error at all, contradicting the claim
that the whole aggregation fails with the first error. -/
theorem per_kind_error_ignored_counterexample :
    (runCycle cfgAll envZero storePrsFail state0).1.error = none ∧
    (runCycle cfgAll envZero storePrsFail state0).1.activities =
      [⟨"commit", "fix build", "alice", 1000, "acme/widgets"⟩] := by
  decide

/-- C1 amended: an error result from any of the four per-kind range
queries is silently ignored — the cycle behaves exactly as if that kind's
query had returned no rows, publishing the output built from the
remaining kinds; and only a registry fetch error fails the aggregation:
whenever the registry read succeeds, the surfaced error is `null`
whatever per-kind errors occurred. -/
theorem per_kind_error_ignored (cfg : Config) (env : HookEnv) (store : Store)
    (s : HookState) (e : String) :
    (runCycle cfg env { store with commitsError := some e } s =
      runCycle cfg env { store with commits := [], commitsError := none } s) ∧
    (runCycle cfg env { store with prsError := some e } s =
      runCycle cfg env { store with pullRequests := [], prsError := none } s) ∧
    (runCycle cfg env { store with issuesError := some e } s =
      runCycle cfg env { store with issues := [], issuesError := none } s) ∧
    (runCycle cfg env { store with reviewsError := some e } s =
      runCycle cfg env { store with reviews := [], reviewsError := none } s) ∧
    (cfg.shouldFetchData = true → store.reposRes.error = none →
      (runCycle cfg env store s).1.error = none) := by
  obtain ⟨⟨rdata, rerr⟩, cs, ps, isr, rvs, ce, pe, ie, re⟩ := store
  refine ⟨rfl, rfl, rfl, rfl, fun hf he => ?_⟩
  replace he : rerr = none := he
  subst he
  unfold runCycle fetchData
  dsimp only
  split
  · rename_i h; simp [hf] at h
  · split
    · rfl
    · cases rdata with
      | none => rfl
      | some repos =>
        cases repos with
        | nil => rfl
        | cons r rs => rfl

/-- Witness for C1's amended claim: a failing pull-request query leaves
the cycle equal to one whose pull-request table is empty, and a healthy
registry read yields a `null` error slot. -/
theorem per_kind_error_ignored_witness :
    (runCycle cfgAll envZero { storeOneCommit with prsError := some "boom" } state0 =
      runCycle cfgAll envZero
        { storeOneCommit with pullRequests := [], prsError := none } state0) ∧
    (runCycle cfgAll envZero storeOneCommit state0).1.error = none :=
  ⟨(per_kind_error_ignored cfgAll envZero storeOneCommit state0 "boom").2.1,
   (per_kind_error_ignored cfgAll envZero storeOneCommit state0 "boom").2.2.2.2 rfl rfl⟩

/-- C2 counterexample: a non-empty registry with no row matching the
selected repository still issues all four per-kind queries (over an empty
repository-id set), contradicting the claim that none is issued. -/
theorem empty_scope_queries_counterexample :
    (runCycle cfgRepoB envZero storeOneCommit state0).2.activityQueries.length = 4 ∧
    (runCycle cfgRepoB envZero storeOneCommit state0).1.activities = [] := by
  decide

/-- C2 amended: the short-circuit covers only an empty (or null) loaded
registry — then the output is the empty sequence and no per-kind query is
issued; when the registry is non-empty but the resolved scope is empty,
the four per-kind queries are still issued, each over an empty
repository-id set, and the published output is the empty sequence. -/
theorem empty_scope_still_queries (cfg : Config) (env : HookEnv) (store : Store)
    (s : HookState)
    (hf : cfg.shouldFetchData = true)
    (hg : (cfg.dateRange == "custom" &&
      (!(truthyStr cfg.startDate) || !(truthyStr cfg.endDate))) = false)
    (he : store.reposRes.error = none) :
    ((store.reposRes.data = none ∨ store.reposRes.data = some []) →
      (runCycle cfg env store s).1.activities = [] ∧
      (runCycle cfg env store s).2.activityQueries = []) ∧
    (∀ repos, store.reposRes.data = some repos → repos ≠ [] →
      resolveScope cfg repos = [] →
      (runCycle cfg env store s).2.activityQueries.length = 4 ∧
      ((runCycle cfg env store s).2.activityQueries.all
        (fun q => q.repoIds.isEmpty)) = true ∧
      (runCycle cfg env store s).1.activities = []) := by
  constructor
  · intro hd
    rcases hd with hd | hd <;>
      constructor <;> simp [runCycle, hf, fetchData, hg, he, hd]
  · intro repos hd hne hsc
    cases repos with
    | nil => exact absurd rfl hne
    | cons r rs =>
      refine ⟨?_, ?_, ?_⟩
      · simp [runCycle, hf, fetchData, hg, he, hd]
      · simp [runCycle, hf, fetchData, hg, he, hd, hsc, buildActivityQuery]
      · simp [runCycle, hf, fetchData, hg, he, hd, hsc, normalizeActivities,
          buildActivityQuery, dataOrEmpty_runQuery_nil_repoIds, sortByDateDesc]

/-- Witness for C2's amended claim: an empty registry short-circuits with
no queries, and a registry holding `acme/widgets` while `beta/app` is
selected still issues four queries over empty repository-id sets. -/
theorem empty_scope_still_queries_witness :
    ((runCycle cfgAll envZero storeEmptyRegistry state0).1.activities = [] ∧
     (runCycle cfgAll envZero storeEmptyRegistry state0).2.activityQueries = []) ∧
    ((runCycle cfgRepoB envZero storeCommitPr state0).2.activityQueries.length = 4 ∧
     ((runCycle cfgRepoB envZero storeCommitPr state0).2.activityQueries.all
        (fun q => q.repoIds.isEmpty)) = true ∧
     (runCycle cfgRepoB envZero storeCommitPr state0).1.activities = []) :=
  ⟨(empty_scope_still_queries cfgAll envZero storeEmptyRegistry state0
      rfl (by decide) rfl).1 (Or.inr rfl),
   (empty_scope_still_queries cfgRepoB envZero storeCommitPr state0
      rfl (by decide) rfl).2 [repoR1] rfl (by decide) (by decide)⟩

/-- C3 counterexample: a failing registry fetch surfaces its error but
leaves the previously published activity sequence in place rather than
discarding it. -/
theorem fetch_error_keeps_prior_counterexample :
    (runCycle cfgAll envZero storeRegistryError statePrev).1.error = some "db down" ∧
    (runCycle cfgAll envZero storeRegistryError statePrev).1.activities =
      statePrev.activities ∧
    statePrev.activities ≠ [] := by
  decide

/-- C3 amended: when the cycle fails with an upstream fetch error, the
error message is surfaced and the loading flag cleared, but the
previously published activity sequence is left in the output slot
unchanged (the presentation layer merely renders the error instead). -/
theorem fetch_error_keeps_prior_activities (cfg : Config) (env : HookEnv) (store : Store)
    (s : HookState) (e : String)
    (hf : cfg.shouldFetchData = true)
    (hg : (cfg.dateRange == "custom" &&
      (!(truthyStr cfg.startDate) || !(truthyStr cfg.endDate))) = false)
    (he : store.reposRes.error = some e) :
    (runCycle cfg env store s).1 = ⟨s.activities, false, some (surfacedError e)⟩ := by
  simp [runCycle, hf, fetchData, hg, he]

/-- Witness for C3's amended claim with the registry read failing. -/
theorem fetch_error_keeps_prior_activities_witness :
    (runCycle cfgAll envZero storeRegistryError state0).1 =
      ⟨state0.activities, false, some (surfacedError "db down")⟩ :=
  fetch_error_keeps_prior_activities cfgAll envZero storeRegistryError state0 "db down"
    rfl (by decide) rfl

/-- C5 counterexample: a cancelled cycle whose registry read settles with
an empty registry still overwrites the newer cycle's published result
with the empty sequence (the empty-registry branch carries no
cancellation check), so the published output no longer equals the newer
cycle's result. -/
theorem late_cycle_overwrite_counterexample :
    lateResume storeEmptyRegistry statePrev = ⟨[], false, none⟩ ∧
    statePrev ≠ (⟨[], false, none⟩ : HookState) := by
  decide

/-- C5 amended: the late resolution of a cancelled cycle never mutates
the published state — the registry-error path and the main publish path
both check the token — except through the empty/null-registry branch,
which lacks the check and overwrites the output with the empty sequence
while clearing the loading flag. -/
theorem late_cycle_resume (store : Store) (s : HookState) :
    (∀ e, store.reposRes.error = some e → lateResume store s = s) ∧
    (∀ repos, store.reposRes.error = none → store.reposRes.data = some repos →
      repos ≠ [] → lateResume store s = s) ∧
    (store.reposRes.error = none →
      store.reposRes.data = none ∨ store.reposRes.data = some [] →
      lateResume store s = { s with activities := [], loading := false }) := by
  refine ⟨fun e he => ?_, fun repos he hd hne => ?_, fun he hd => ?_⟩
  · simp [lateResume, he]
  · cases repos with
    | nil => exact absurd rfl hne
    | cons r rs => simp [lateResume, he, hd]
  · rcases hd with hd | hd <;> simp [lateResume, he, hd]

/-- Witness for C5's amended claim: a late cycle that saw a non-empty
registry leaves the newer cycle's published state untouched. -/
theorem late_cycle_resume_witness :
    lateResume storeOneCommit statePrev = statePrev :=
  (late_cycle_resume storeOneCommit statePrev).2.1 [repoR1] rfl rfl (by decide)

/-- C7 counterexample: invoking the cycle with `dateRange = "custom"` and
only `startDate` supplied performs no fetch and keeps the activities, but
it clears a previously surfaced error to `null` instead of leaving the
error slot unchanged. -/
theorem custom_guard_clears_error_counterexample :
    statePrevErr.error = some "boom" ∧
    (runCycle cfgCustomOneDate envZero storeOneCommit statePrevErr).1.error = none ∧
    (runCycle cfgCustomOneDate envZero storeOneCommit statePrevErr).1.activities =
      statePrevErr.activities ∧
    (runCycle cfgCustomOneDate envZero storeOneCommit statePrevErr).2 =
      (⟨false, []⟩ : CycleLog) := by
  decide

/-- C7 amended: with `dateRange = "custom"` and a missing start or end
date, no registry or activity fetch is performed and the published output
sequence is unchanged, but the error slot is reset to `null` (it is
cleared at cycle start, before the guard) and the loading flag is
cleared. -/
theorem custom_guard_no_fetch (cfg : Config) (env : HookEnv) (store : Store) (s : HookState)
    (hf : cfg.shouldFetchData = true)
    (hc : cfg.dateRange = "custom")
    (hd : truthyStr cfg.startDate = false ∨ truthyStr cfg.endDate = false) :
    (runCycle cfg env store s).1 = ⟨s.activities, false, none⟩ ∧
    (runCycle cfg env store s).2 = (⟨false, []⟩ : CycleLog) := by
  have hguard : (cfg.dateRange == "custom" &&
      (!(truthyStr cfg.startDate) || !(truthyStr cfg.endDate))) = true := by
    rcases hd with h | h <;> simp [hc, h]
  constructor <;> simp [runCycle, hf, fetchData, hguard]

/-- Witness for C7's amended claim with only the start date supplied. -/
theorem custom_guard_no_fetch_witness :
    (runCycle cfgCustomOneDate envZero storeOneCommit state0).1 =
      ⟨state0.activities, false, none⟩ ∧
    (runCycle cfgCustomOneDate envZero storeOneCommit state0).2 =
      (⟨false, []⟩ : CycleLog) :=
  custom_guard_no_fetch cfgCustomOneDate envZero storeOneCommit state0 rfl rfl
    (Or.inr (by decide))

/-- Helper: the final sort always yields a sequence that is pairwise
descending by timestamp. -/
theorem sorted_sortByDateDesc (l : List Activity) :
    List.Pairwise activityDesc (sortByDateDesc l) := by
  haveI : IsTotal Activity activityDesc := ⟨fun a b => Int.le_total b.date a.date⟩
  haveI : IsTrans Activity activityDesc := ⟨fun _ _ _ hab hbc => le_trans hbc hab⟩
  exact List.sorted_insertionSort activityDesc l

/-- Helper: a cycle's published activities are the prior ones, the empty
sequence, or the descending sort of some merged list. -/
theorem runCycle_activities_shape (cfg : Config) (env : HookEnv) (store : Store)
    (s : HookState) :
    (runCycle cfg env store s).1.activities = s.activities ∨
    (runCycle cfg env store s).1.activities = [] ∨
    ∃ l, (runCycle cfg env store s).1.activities = sortByDateDesc l := by
  unfold runCycle fetchData
  dsimp only
  split
  · exact Or.inl rfl
  · split
    · exact Or.inl rfl
    · split
      · exact Or.inl rfl
      · split
        · exact Or.inr (Or.inl rfl)
        · split
          · exact Or.inr (Or.inl rfl)
          · exact Or.inr (Or.inr ⟨_, rfl⟩)

/-- C6: publishing preserves the ordering invariant — for every cycle,
if the prior output was pairwise descending by timestamp then so is the
published output (a freshly published merge is always the descending sort
of the concatenated per-kind sequences). -/
theorem published_output_sorted (cfg : Config) (env : HookEnv) (store : Store)
    (s : HookState)
    (h : List.Pairwise (fun a b : Activity => b.date ≤ a.date) s.activities) :
    List.Pairwise (fun a b : Activity => b.date ≤ a.date)
      (runCycle cfg env store s).1.activities := by
  rcases runCycle_activities_shape cfg env store s with h1 | h1 | ⟨l, h1⟩ <;> rw [h1]
  · exact h
  · exact List.Pairwise.nil
  · exact sorted_sortByDateDesc l

/-- Witness for C6: a published merge of one commit and one newer pull
request is pairwise descending by timestamp. -/
theorem published_output_sorted_witness :
    List.Pairwise (fun a b : Activity => b.date ≤ a.date)
      (runCycle cfgAll envZero storeCommitPr state0).1.activities :=
  published_output_sorted cfgAll envZero storeCommitPr state0 List.Pairwise.nil

/-- Helper: a cycle issues either no per-kind queries or exactly the four
kind queries, all built over the same repository-id set, author chain and
date bounds. -/
theorem runCycle_queries_shape (cfg : Config) (env : HookEnv) (store : Store)
    (s : HookState) :
    (runCycle cfg env store s).2.activityQueries = [] ∨
    ∃ ids b1 b2,
      (runCycle cfg env store s).2.activityQueries =
        [buildActivityQuery "commits" ids cfg b1 b2,
         buildActivityQuery "pull_requests" ids cfg b1 b2,
         buildActivityQuery "issues" ids cfg b1 b2,
         buildActivityQuery "reviews" ids cfg b1 b2] := by
  unfold runCycle fetchData
  dsimp only
  split
  · exact Or.inl rfl
  · split
    · exact Or.inl rfl
    · split
      · exact Or.inl rfl
      · split
        · exact Or.inl rfl
        · split
          · exact Or.inl rfl
          · exact Or.inr ⟨_, _, _, rfl⟩

/-- C8: when a single exact-match author is supplied, every issued
per-kind query filters by that author alone, whatever the author set
holds; the set-membership filter is used only when no single author is
given; with neither, no author constraint is applied.  The last three
conjuncts fix the semantics of each filter shape on a row's author. -/
theorem author_filter_precedence (cfg : Config) (env : HookEnv) (store : Store)
    (s : HookState) :
    (cfg.searchUsername ≠ "" →
      ∀ q ∈ (runCycle cfg env store s).2.activityQueries,
        q.author = AuthorFilter.eqAuthor cfg.searchUsername) ∧
    (cfg.searchUsername = "" → cfg.selectedUsers ≠ [] →
      ∀ q ∈ (runCycle cfg env store s).2.activityQueries,
        q.author = AuthorFilter.inAuthors cfg.selectedUsers) ∧
    (cfg.searchUsername = "" → cfg.selectedUsers = [] →
      ∀ q ∈ (runCycle cfg env store s).2.activityQueries,
        q.author = AuthorFilter.noFilter) ∧
    (∀ u a, authorMatches (AuthorFilter.eqAuthor u) a = (a == u)) ∧
    (∀ us a, authorMatches (AuthorFilter.inAuthors us) a = us.contains a) ∧
    (∀ a, authorMatches AuthorFilter.noFilter a = true) := by
  have hauthor : ∀ q ∈ (runCycle cfg env store s).2.activityQueries,
      q.author = authorFilterOf cfg.searchUsername cfg.selectedUsers := by
    rcases runCycle_queries_shape cfg env store s with h | ⟨ids, b1, b2, h⟩ <;> rw [h]
    · intro q hq; exact absurd hq (List.not_mem_nil q)
    · intro q hq
      simp only [List.mem_cons, List.not_mem_nil, or_false] at hq
      rcases hq with rfl | rfl | rfl | rfl <;> rfl
  refine ⟨fun hu q hq => ?_, fun hu hus q hq => ?_, fun hu hus q hq => ?_,
    fun _ _ => rfl, fun _ _ => rfl, fun _ => rfl⟩
  · rw [hauthor q hq]; simp [authorFilterOf, hu]
  · rw [hauthor q hq]
    simp [authorFilterOf, hu, List.length_pos.mpr hus]
  · rw [hauthor q hq]; simp [authorFilterOf, hu, hus]

/-- Witness for C8: with `searchUsername = "alice"` and a non-empty
author set supplied together, every issued query carries the exact-match
filter on `"alice"`. -/
theorem author_filter_precedence_witness :
    ((runCycle cfgBothAuthors envZero storeOneCommit state0).2.activityQueries.all
      (fun q => q.author == AuthorFilter.eqAuthor "alice")) = true := by
  have h := (author_filter_precedence cfgBothAuthors envZero storeOneCommit state0).1
    (by decide)
  refine List.all_eq_true.mpr (fun q hq => ?_)
  rw [h q hq]; decide
